import Mathlib

/-!
Shallow embedding of `scripts/combine_pdfs.py`: the multi-source PDF fetch
(`get_pdf_content`), the attachment selection (`get_collection_items_with_pdfs`),
and the size-bounded aggregation loop (`combine_pdfs`).

Network traffic is abstracted by a `FetchEnv` record holding the responses the
script's HTTP requests would receive; byte strings are `List Nat`; file sizes
are natural-number units (the script's `os.path.getsize(...) / (1024*1024)`
megabyte measure); the materialized size of a merged artifact is an arbitrary
function of the sizes of the source files appended to the current merger,
passed in as a `measure` parameter (instantiated with `List.sum` in concrete
scenarios).
-/

/-- Byte content of a downloaded file. -/
abbrev Bytes := List Nat

/-- Result of one network request: either a response or a raised exception
(the script catches exceptions locally at each download attempt). -/
inductive Net (α : Type) where
  | ok (val : α)
  | err (msg : String)
deriving DecidableEq

/-- An HTTP response as the script consumes it: status code, optional
`Location` header, and body bytes. -/
structure HttpResp where
  status : Nat
  location : Option String
  body : Bytes
deriving DecidableEq

/-- The parsed Unpaywall lookup response as the script consumes it:
status code, the `is_oa` flag, and the `best_oa_location` URL when that
object is present with its `url` field. -/
structure UpResp where
  status : Nat
  isOa : Bool
  bestOaUrl : Option String
deriving DecidableEq

/-- Responses the network would give to each request `get_pdf_content` can
make for one item: the authenticated Zotero storage request, the follow-up
signed-URL request, the direct attachment-URL request, the Unpaywall lookup,
and the GET against an alternative open-access URL. -/
structure FetchEnv where
  storageResp : Net HttpResp
  signedResp : Net HttpResp
  urlResp : Net HttpResp
  upResp : Net UpResp
  altResp : String → Net HttpResp

/-- The attachment metadata `get_pdf_content` reads: the item key (used to
build the storage URL), the `url` field (default `""`), the `linkMode`
field, and the parent's DOI field when present. -/
structure FetchItem where
  key : String
  url : String
  linkMode : Option String
  doi : Option String
deriving DecidableEq

/-- Method 1 of `get_pdf_content` (lines 101-124): authenticated request to
Zotero storage; a 302 redirect with a `Location` header leads to an
unauthenticated GET of the signed URL (200 = success); a direct 200 is also
success; any other status, missing header, or exception fails this method. -/
def method1Result (env : FetchEnv) (_item : FetchItem) : Option Bytes :=
  match env.storageResp with
  | .err _ => none
  | .ok r =>
    if r.status = 302 then
      match r.location with
      | some _ =>
        match env.signedResp with
        | .err _ => none
        | .ok fr => if fr.status = 200 then some fr.body else none
      | none => none
    else if r.status = 200 then some r.body
    else none

/-- Method 2 of `get_pdf_content` (lines 126-139): direct GET of the
attachment's `url`, attempted only when the url is nonempty and
`linkMode == "imported_url"`; 200 = success. -/
def method2Result (env : FetchEnv) (item : FetchItem) : Option Bytes :=
  if item.url ≠ "" ∧ item.linkMode = some "imported_url" then
    match env.urlResp with
    | .err _ => none
    | .ok r => if r.status = 200 then some r.body else none
  else none

/-- The `alt_urls` list built by method 3 (lines 142-154): when the item has
a DOI and the Unpaywall lookup returns 200 with `is_oa` and a
`best_oa_location`, that location's url is the single entry; otherwise the
list is empty (lookup failures are caught and leave the list empty). -/
def altUrlsOf (env : FetchEnv) (item : FetchItem) : List String :=
  match item.doi with
  | none => []
  | some _ =>
    match env.upResp with
    | .err _ => []
    | .ok u =>
      if u.status = 200 then
        match u.bestOaUrl with
        | some loc => if u.isOa then [loc] else []
        | none => []
      else []

/-- The `for alt_url in alt_urls` loop (lines 156-165): GET each alternative
URL in order, returning the first 200 body; exceptions and non-200 statuses
move on to the next URL. -/
def tryAltUrls (env : FetchEnv) : List String → Option Bytes
  | [] => none
  | u :: rest =>
    match env.altResp u with
    | .err _ => tryAltUrls env rest
    | .ok r => if r.status = 200 then r.body else tryAltUrls env rest

/-- Method 3 of `get_pdf_content` (lines 141-165): Unpaywall lookup followed
by GETs of the alternative URLs. -/
def method3Result (env : FetchEnv) (item : FetchItem) : Option Bytes :=
  tryAltUrls env (altUrlsOf env item)

/-- Which download source produced the returned bytes. -/
inductive SourceKind where
  | primaryStorage
  | directUrl
  | oaMirror
deriving DecidableEq

/-- The observable outcome of `get_pdf_content`: bytes returned from one of
the three methods (the constructor records which return site fired), or
`failed` for the final `return None` (line 168) — note the code returns a
bare `None`, carrying no error information. -/
inductive FetchOutcome where
  | fromStorage (b : Bytes)
  | fromUrl (b : Bytes)
  | fromOa (b : Bytes)
  | failed
deriving DecidableEq

/-- The bytes carried by a fetch outcome, if any. -/
def FetchOutcome.content : FetchOutcome → Option Bytes
  | .fromStorage b => some b
  | .fromUrl b => some b
  | .fromOa b => some b
  | .failed => none

/-- The source a fetch outcome's bytes came from, if any. -/
def FetchOutcome.sourceUsed : FetchOutcome → Option SourceKind
  | .fromStorage _ => some SourceKind.primaryStorage
  | .fromUrl _ => some SourceKind.directUrl
  | .fromOa _ => some SourceKind.oaMirror
  | .failed => none

/-- `get_pdf_content` (lines 99-168): try Zotero storage, then the direct
linked URL, then the open-access alternatives, in that order, returning at
the first success; `failed` when all three methods fail. Every per-source
error is caught inside its method, so the function is total (never raises). -/
def get_pdf_content (env : FetchEnv) (item : FetchItem) : FetchOutcome :=
  match method1Result env item with
  | some b => FetchOutcome.fromStorage b
  | none =>
    match method2Result env item with
    | some b => FetchOutcome.fromUrl b
    | none =>
      match method3Result env item with
      | some b => FetchOutcome.fromOa b
      | none => FetchOutcome.failed

/-- A child attachment's metadata as `get_collection_items_with_pdfs` reads
it: `contentType`, `itemType`, and `filename` (default `""`). -/
structure ZChild where
  contentType : Option String
  itemType : Option String
  filename : String
deriving DecidableEq

/-- A library item together with the result of the `zot.children` call for
it (which may raise; the script catches that, warns, and skips the item). -/
structure ZItem where
  key : String
  itemType : Option String
  title : String
  children : Net (List ZChild)
deriving DecidableEq

/-- ASCII lower-casing of one character, for the `.lower()` call applied to
filenames. -/
def lowerChar (c : Char) : Char :=
  if 65 ≤ c.toNat ∧ c.toNat ≤ 90 then Char.ofNat (c.toNat + 32) else c

/-- `filename.lower().endswith(".pdf")` over the filename's characters
(case folding modelled on ASCII letters). -/
def endsWithPdf (name : String) : Bool :=
  (name.data.map lowerChar).reverse.take 4 == ['f', 'd', 'p', '.']

/-- The PDF test of lines 83-86: `contentType == "application/pdf"`, or an
attachment whose filename ends with `.pdf` (case-insensitively). -/
def isPdfChild (c : ZChild) : Bool :=
  c.contentType == some "application/pdf" ||
    (c.itemType == some "attachment" && endsWithPdf c.filename)

/-- The per-item selection of lines 74-94: skip items whose own `itemType`
is `attachment`; skip items whose children fetch raised; otherwise pick the
first child passing the PDF test (the loop `break`s at the first match), or
nothing when no child matches. -/
def selected_pdf_child (it : ZItem) : Option ZChild :=
  if it.itemType = some "attachment" then none
  else
    match it.children with
    | .err _ => none
    | .ok cs => cs.find? isPdfChild

/-- `get_collection_items_with_pdfs` (lines 66-96): the `(item, child)` pairs
for items with a selected PDF attachment, in collection order. Items with no
matching attachment contribute nothing — they are not recorded anywhere. -/
def get_collection_items_with_pdfs (items : List ZItem) : List (ZItem × ZChild) :=
  items.filterMap fun it => (selected_pdf_child it).map fun c => (it, c)

/-- One entry of `current_chunk_papers` / `processed_papers` (lines 244-247):
title and page count. -/
structure PaperRecord where
  title : String
  pages : Nat
deriving DecidableEq

/-- One entry of the returned `chunks_info` (lines 229-235, 263-269): the
chunk number, its output path, its recorded size at seal/flush time, and its
member paper records. -/
structure Chunk where
  num : Nat
  path : String
  size : Nat
  papers : List PaperRecord
deriving DecidableEq

/-- Where inside the `try` body of lines 211-248 an exception is raised,
determining which mutations have already happened when the `except` at
line 254 catches it:
`atAppend` — any raise up to and including `merger.append` (line 223),
before the merger mutates (temp-file errors included; a failing append is
modelled as atomic, leaving the merger unchanged);
`atWrite` — `merger.write` (line 224) raised after the append succeeded:
the item is inside the live merger, no complete file write happened;
`atMeasure` — `os.path.getsize` (line 225) raised after the write: the item
is in the merger and in the chunk's written file;
`atReader` — `PdfReader(...).pages` (line 245) raised after append, write,
measure and the whole rollover decision of lines 227-242: a seal, chunk
advance and merger swap that already happened are kept, but no record is
appended to `current_chunk_papers` (line 244) or `processed_papers`. -/
inductive RaiseSite where
  | atAppend
  | atWrite
  | atMeasure
  | atReader
deriving DecidableEq

/-- How processing one `(parent_item, pdf_item)` pair goes in the loop body
(lines 210-257): `ok` when `get_pdf_content` returned bytes and the whole
body ran; `fetchFail` when it returned `None` (line 250); `raised site`
when the body raised an exception at the given site (the `except` at
line 254 catches it, records the title and continues). -/
inductive POutcome where
  | ok
  | fetchFail
  | raised (site : RaiseSite)
deriving DecidableEq

/-- One input pair of the aggregation loop, abstracted: the attachment key
(names the temp file whose bytes are appended, hence identifies the item's
physical content), the parent title, the item's size contribution in
measure units, its page count, and how its iteration goes. -/
structure PItem where
  key : String
  title : String
  size : Nat
  pages : Nat
  outcome : POutcome
deriving DecidableEq

/-- `os.path.splitext` restricted to plain file names (no directory
separators, as the script's output paths are): split at the last dot,
provided some character before it is not a dot (so names consisting only of
leading dots keep their dots and get an empty extension). -/
def splitext (p : String) : String × String :=
  let cs := p.data
  let leadDots := (cs.takeWhile fun c => c = '.').length
  match cs.reverse.findIdx? fun c => c = '.' with
  | none => (p, "")
  | some j =>
    let i := cs.length - 1 - j
    if leadDots < i then (String.mk (cs.take i), String.mk (cs.drop i))
    else (p, "")

/-- `get_chunk_path` (lines 192-195): always inserts `_chunk{n}` between the
base name and its extension. -/
def get_chunk_path (base_path : String) (chunk_num : Nat) : String :=
  let ne := splitext base_path
  ne.1 ++ "_chunk" ++ toString chunk_num ++ ne.2

/-- The mutable state of the aggregation loop in `combine_pdfs`:
`chunks` is `chunks_info`, `currentChunk` / `currentPath` /
`currentPapers` are `current_chunk` / `current_temp_path` /
`current_chunk_papers`, `processed` / `failed` are `processed_papers` /
`failed_papers`, `merger` holds the items appended to the live `PdfMerger`,
and `files` maps a chunk number to the keys of the items contained in the
last write to that chunk's output file (the physical artifact contents). -/
structure AggState where
  chunks : List Chunk
  currentChunk : Nat
  currentPath : String
  currentPapers : List PaperRecord
  processed : List PaperRecord
  failed : List String
  merger : List PItem
  files : Nat → List String

/-- Point update of the written-files map. -/
def updateFiles (f : Nat → List String) (n : Nat) (v : List String) : Nat → List String :=
  fun k => if k = n then v else f k

/-- The loop body of `combine_pdfs` (lines 210-257) for one input pair.
On `ok`: append to the merger, write the current chunk file, measure it;
if the measured size reaches the ceiling, seal the current chunk with the
records accumulated so far (the copy at line 233 is taken before the new
record exists), open the next chunk, and re-append the item to the fresh
merger (line 241); in either case the new record then joins
`current_chunk_papers` and `processed_papers` (lines 244-247).
On `fetchFail`: only `failed_papers` grows (lines 250-252).
On `raised site`: the title joins `failed_papers` and the loop continues
(lines 254-257), keeping whatever the body mutated before the raise —
nothing for `atAppend`; the merger grew for `atWrite`; the merger grew and
the chunk file was written for `atMeasure`; and for `atReader` additionally
the lines 227-242 rollover was taken when the measured size reached the
ceiling (seal with the pre-existing records, chunk advance, fresh merger
holding the item, `current_chunk_papers` reset) — with no paper record
created at any site. -/
def combineStep (measure : List Nat → Nat) (base : String) (ceiling : Nat)
    (s : AggState) (it : PItem) : AggState :=
  match it.outcome with
  | .fetchFail => { s with failed := s.failed ++ [it.title] }
  | .raised site =>
    let merged := s.merger ++ [it]
    let files1 := updateFiles s.files s.currentChunk (merged.map PItem.key)
    let sz := measure (merged.map PItem.size)
    match site with
    | .atAppend => { s with failed := s.failed ++ [it.title] }
    | .atWrite => { s with merger := merged, failed := s.failed ++ [it.title] }
    | .atMeasure =>
      { s with merger := merged, files := files1, failed := s.failed ++ [it.title] }
    | .atReader =>
      if ceiling ≤ sz then
        { chunks := s.chunks ++ [⟨s.currentChunk, s.currentPath, sz, s.currentPapers⟩]
          currentChunk := s.currentChunk + 1
          currentPath := get_chunk_path base (s.currentChunk + 1)
          currentPapers := []
          processed := s.processed
          failed := s.failed ++ [it.title]
          merger := [it]
          files := files1 }
      else
        { s with merger := merged, files := files1, failed := s.failed ++ [it.title] }
  | .ok =>
    let merged := s.merger ++ [it]
    let files1 := updateFiles s.files s.currentChunk (merged.map PItem.key)
    let sz := measure (merged.map PItem.size)
    let rcd : PaperRecord := ⟨it.title, it.pages⟩
    if ceiling ≤ sz then
      { chunks := s.chunks ++ [⟨s.currentChunk, s.currentPath, sz, s.currentPapers⟩]
        currentChunk := s.currentChunk + 1
        currentPath := get_chunk_path base (s.currentChunk + 1)
        currentPapers := [rcd]
        processed := s.processed ++ [rcd]
        failed := s.failed
        merger := [it]
        files := files1 }
    else
      { s with
        merger := merged
        files := files1
        currentPapers := s.currentPapers ++ [rcd]
        processed := s.processed ++ [rcd] }

/-- The final-chunk flush of lines 259-269: when `current_chunk_papers` is
nonempty, write the live merger once more and record the final chunk; an
empty trailing chunk is discarded. -/
def finalize_chunks (measure : List Nat → Nat) (s : AggState) : AggState :=
  match s.currentPapers with
  | [] => s
  | _ :: _ =>
    { s with
      files := updateFiles s.files s.currentChunk (s.merger.map PItem.key)
      chunks := s.chunks ++
        [⟨s.currentChunk, s.currentPath, measure (s.merger.map PItem.size), s.currentPapers⟩] }

/-- The initial state of lines 186-206: chunk numbering starts at 1 and the
first output path is already the `_chunk1` name. -/
def init_agg_state (base : String) : AggState :=
  { chunks := []
    currentChunk := 1
    currentPath := get_chunk_path base 1
    currentPapers := []
    processed := []
    failed := []
    merger := []
    files := fun _ => [] }

/-- `combine_pdfs` (lines 171-284): fold the loop body over the input pairs
and flush the final chunk. The returned state carries `chunks_info`,
`processed_papers`, `failed_papers`, and the physical file contents. -/
def combine_pdfs (measure : List Nat → Nat) (base : String) (ceiling : Nat)
    (items : List PItem) : AggState :=
  finalize_chunks measure (items.foldl (combineStep measure base ceiling) (init_agg_state base))

/-- The three-item scenario of the spec: A(40), B(40), C(30) with ceiling
95 and an additive size measure. -/
def scenarioRun : AggState :=
  combine_pdfs List.sum "X_papers.pdf" 95
    [⟨"KA", "A", 40, 10, POutcome.ok⟩, ⟨"KB", "B", 40, 11, POutcome.ok⟩,
      ⟨"KC", "C", 30, 12, POutcome.ok⟩]

/-- Appending one element and dropping the last returns the original list. -/
theorem dropLast_append_single {α : Type} (l : List α) (a : α) :
    (l ++ [a]).dropLast = l :=
  List.dropLast_concat

/-- Loop invariant of `combine_pdfs`: the sealed chunks' member lists
concatenated with the open chunk's members equal the processed list; every
sealed chunk's size reached the ceiling; the open path and every sealed
path are the `_chunk{n}` name for their chunk number. -/
def AggInv (base : String) (ceiling : Nat) (s : AggState) : Prop :=
  (s.chunks.map Chunk.papers).flatten ++ s.currentPapers = s.processed
  ∧ (∀ c ∈ s.chunks, ceiling ≤ c.size)
  ∧ s.currentPath = get_chunk_path base s.currentChunk
  ∧ ∀ c ∈ s.chunks, c.path = get_chunk_path base c.num

theorem aggInv_init (base : String) (ceiling : Nat) :
    AggInv base ceiling (init_agg_state base) := by
  refine ⟨rfl, ?_, rfl, ?_⟩ <;> intro c hc <;> simp [init_agg_state] at hc

theorem aggInv_step (measure : List Nat → Nat) (base : String) (ceiling : Nat)
    (s : AggState) (it : PItem) (h : AggInv base ceiling s) :
    AggInv base ceiling (combineStep measure base ceiling s it) := by
  obtain ⟨h1, h2, h3, h4⟩ := h
  unfold combineStep
  cases hout : it.outcome with
  | fetchFail => exact ⟨h1, h2, h3, h4⟩
  | raised site =>
    cases site with
    | atAppend => exact ⟨h1, h2, h3, h4⟩
    | atWrite => exact ⟨h1, h2, h3, h4⟩
    | atMeasure => exact ⟨h1, h2, h3, h4⟩
    | atReader =>
      dsimp only
      split
      case isTrue hle =>
        refine ⟨?_, ?_, rfl, ?_⟩
        · simp only [List.map_append, List.flatten_append, List.map_cons, List.map_nil,
            List.flatten_cons, List.flatten_nil, List.append_nil]
          exact h1
        · intro c hc
          rcases List.mem_append.mp hc with hc | hc
          · exact h2 c hc
          · simp only [List.mem_singleton] at hc
            subst hc
            exact hle
        · intro c hc
          rcases List.mem_append.mp hc with hc | hc
          · exact h4 c hc
          · simp only [List.mem_singleton] at hc
            subst hc
            exact h3
      case isFalse hle => exact ⟨h1, h2, h3, h4⟩
  | ok =>
    dsimp only
    split
    case isTrue hle =>
      refine ⟨?_, ?_, rfl, ?_⟩
      · simp only [List.map_append, List.flatten_append, List.map_cons, List.map_nil,
          List.flatten_cons, List.flatten_nil, List.append_nil, List.append_assoc]
        rw [← List.append_assoc, h1]
      · intro c hc
        rcases List.mem_append.mp hc with hc | hc
        · exact h2 c hc
        · simp only [List.mem_singleton] at hc
          subst hc
          exact hle
      · intro c hc
        rcases List.mem_append.mp hc with hc | hc
        · exact h4 c hc
        · simp only [List.mem_singleton] at hc
          subst hc
          exact h3
    case isFalse hle =>
      refine ⟨?_, h2, h3, h4⟩
      rw [← List.append_assoc, h1]

theorem aggInv_foldl (measure : List Nat → Nat) (base : String) (ceiling : Nat) :
    ∀ (l : List PItem) (s : AggState), AggInv base ceiling s →
      AggInv base ceiling (l.foldl (combineStep measure base ceiling) s) := by
  intro l
  induction l with
  | nil => intro s h; exact h
  | cons x xs ih =>
    intro s h
    exact ih _ (aggInv_step measure base ceiling s x h)

theorem aggInv_run (measure : List Nat → Nat) (base : String) (ceiling : Nat)
    (items : List PItem) :
    AggInv base ceiling (items.foldl (combineStep measure base ceiling) (init_agg_state base)) :=
  aggInv_foldl measure base ceiling items _ (aggInv_init base ceiling)

/-- Flushing the final chunk preserves the membership accounting. -/
theorem finalize_flatten (measure : List Nat → Nat) (s : AggState)
    (h : (s.chunks.map Chunk.papers).flatten ++ s.currentPapers = s.processed) :
    ((finalize_chunks measure s).chunks.map Chunk.papers).flatten
      = (finalize_chunks measure s).processed := by
  unfold finalize_chunks
  cases hcp : s.currentPapers with
  | nil =>
    rw [hcp, List.append_nil] at h
    exact h
  | cons p ps =>
    rw [hcp] at h
    simp only [List.map_append, List.flatten_append, List.map_cons, List.map_nil,
      List.flatten_cons, List.flatten_nil, List.append_nil]
    exact h

/-- Every chunk but the last of the finalized run was sealed at rollover,
so its recorded size reached the ceiling. -/
theorem finalize_dropLast_ge (measure : List Nat → Nat) (ceiling : Nat) (s : AggState)
    (h : ∀ c ∈ s.chunks, ceiling ≤ c.size) :
    ∀ c ∈ (finalize_chunks measure s).chunks.dropLast, ceiling ≤ c.size := by
  unfold finalize_chunks
  cases hcp : s.currentPapers with
  | nil =>
    intro c hc
    exact h c (List.dropLast_subset _ hc)
  | cons p ps =>
    intro c hc
    rw [dropLast_append_single] at hc
    exact h c hc

/-- Every chunk of the finalized run is written to the `_chunk{n}` path for
its chunk number. -/
theorem finalize_paths (measure : List Nat → Nat) (base : String) (s : AggState)
    (h3 : s.currentPath = get_chunk_path base s.currentChunk)
    (h4 : ∀ c ∈ s.chunks, c.path = get_chunk_path base c.num) :
    ∀ c ∈ (finalize_chunks measure s).chunks, c.path = get_chunk_path base c.num := by
  unfold finalize_chunks
  cases hcp : s.currentPapers with
  | nil => exact h4
  | cons p ps =>
    intro c hc
    rcases List.mem_append.mp hc with hc | hc
    · exact h4 c hc
    · simp only [List.mem_singleton] at hc
      subst hc
      exact h3

/-- C1: the spec claims the overflow-triggering item is a member of the
chunk sealed at that moment, and that the 40/40/30 run with ceiling 95
emits exactly one sealed chunk holding all three items. The code instead
copies `current_chunk_papers` before the new record exists and re-appends
the item to the fresh merger, so the run emits two chunks: the sealed one
with members [A, B] (though its recorded size, 110, includes C) and a
second chunk with member [C]. -/
theorem c1_overflow_item_recorded_in_new_chunk :
    scenarioRun.chunks.map (fun c => c.papers.map PaperRecord.title) = [["A", "B"], ["C"]]
    ∧ scenarioRun.chunks.map Chunk.size = [110, 30]
    ∧ scenarioRun.chunks.length = 2 := by decide

/-- C2: the spec claims each ingested item's content is physically written
into exactly one emitted chunk artifact. In the 40/40/30 run the sealed
chunk's file was last written right after the overflow append (so it holds
A, B and C), and C is re-appended to the next merger and written again into
chunk 2's file: item C's content is present in both emitted artifacts. -/
theorem c2_overflow_item_in_two_artifacts :
    scenarioRun.chunks.map Chunk.num = [1, 2]
    ∧ scenarioRun.files 1 = ["KA", "KB", "KC"]
    ∧ scenarioRun.files 2 = ["KC"] := by decide

/-- C3: every emitted chunk except possibly the last (the one flushed at
input exhaustion) was sealed at rollover, and its recorded size at that
moment is ≥ the ceiling; the guard is the non-strict `>=` of line 227, so a
chunk landing exactly at the ceiling also rolls over. -/
theorem c3_sealed_chunk_meets_ceiling (measure : List Nat → Nat) (base : String)
    (ceiling : Nat) (items : List PItem) :
    ∀ c ∈ (combine_pdfs measure base ceiling items).chunks.dropLast, ceiling ≤ c.size := by
  unfold combine_pdfs
  exact finalize_dropLast_ge measure ceiling _ (aggInv_run measure base ceiling items).2.1

/-- C3 witness: a run whose first chunk lands exactly at the ceiling
(40 + 55 = 95) still seals it, and the theorem applies to that chunk. -/
theorem c3_sealed_chunk_meets_ceiling_witness :
    (95 : Nat) ≤ (Chunk.mk 1 "X_papers_chunk1.pdf" 95 [⟨"A", 10⟩]).size :=
  c3_sealed_chunk_meets_ceiling List.sum "X_papers.pdf" 95
    [⟨"KA", "A", 40, 10, POutcome.ok⟩, ⟨"KB", "B", 55, 12, POutcome.ok⟩]
    (Chunk.mk 1 "X_papers_chunk1.pdf" 95 [⟨"A", 10⟩]) (by decide)

/-- C4: the member records of the emitted chunks, concatenated in chunk
order, are exactly the processed list of the run report — every
successfully ingested item's record lands in exactly one chunk's member
list, none is duplicated or dropped, including around rollovers. -/
theorem c4_chunk_members_equal_processed (measure : List Nat → Nat) (base : String)
    (ceiling : Nat) (items : List PItem) :
    ((combine_pdfs measure base ceiling items).chunks.map Chunk.papers).flatten
      = (combine_pdfs measure base ceiling items).processed := by
  unfold combine_pdfs
  exact finalize_flatten measure _ (aggInv_run measure base ceiling items).1

/-- C5: `get_pdf_content` tries Zotero storage, then the direct linked URL,
then the open-access mirror, in that fixed order, and stops at the first
success (each method makes at most one attempt per candidate); in
particular, when the first two fail and the third succeeds, the returned
bytes are the third source's and the recorded source is the mirror. -/
theorem c5_fetch_priority_order (env : FetchEnv) (item : FetchItem) :
    (∀ b, method1Result env item = some b →
      get_pdf_content env item = FetchOutcome.fromStorage b)
    ∧ (method1Result env item = none → ∀ b, method2Result env item = some b →
      get_pdf_content env item = FetchOutcome.fromUrl b)
    ∧ (method1Result env item = none → method2Result env item = none →
      ∀ b, method3Result env item = some b →
      get_pdf_content env item = FetchOutcome.fromOa b
        ∧ (get_pdf_content env item).content = some b
        ∧ (get_pdf_content env item).sourceUsed = some SourceKind.oaMirror) := by
  refine ⟨?_, ?_, ?_⟩
  · intro b hb
    simp [get_pdf_content, hb]
  · intro h1 b hb
    simp [get_pdf_content, h1, hb]
  · intro h1 h2 b hb
    simp [get_pdf_content, h1, h2, hb, FetchOutcome.content, FetchOutcome.sourceUsed]

/-- A network environment in which the storage request answers 500, the
direct URL answers 403, and the open-access mirror succeeds with body
[7, 7]. -/
def envThirdWins : FetchEnv :=
  { storageResp := Net.ok ⟨500, none, []⟩
    signedResp := Net.err "unused"
    urlResp := Net.ok ⟨403, none, []⟩
    upResp := Net.ok ⟨200, true, some "oa-url"⟩
    altResp := fun _ => Net.ok ⟨200, none, [7, 7]⟩ }

/-- An attachment carrying a url with `imported_url` link mode and a DOI,
so that all three methods are eligible. -/
def itemFull : FetchItem := ⟨"KEY1", "http://x", some "imported_url", some "10.1/x"⟩

/-- C5 witness: with storage and the direct URL failing and the mirror
succeeding, the fetch returns the mirror's bytes. -/
theorem c5_fetch_priority_order_witness :
    get_pdf_content envThirdWins itemFull = FetchOutcome.fromOa [7, 7] :=
  ((c5_fetch_priority_order envThirdWins itemFull).2.2 (by decide) (by decide)
    [7, 7] (by decide)).1

/-- C6 counterexample: the spec claims an error raised by the merge/measure
operation stops the run. In a run whose first item raises at `merger.write`
during ingestion and whose second item succeeds, the second item is still
processed and a chunk containing it is emitted — the `except` of line 254
appends to `failed_papers` and `continue`s instead of stopping. The failed
item's content even remains inside the live merger (the raise came after
its append), so the emitted artifact's file physically contains both keys
while only P2 is a member. -/
theorem c6_counter_run_continues_after_error :
    (combine_pdfs List.sum "Y.pdf" 95
        [⟨"K1", "E1", 40, 10, POutcome.raised RaiseSite.atWrite⟩,
          ⟨"K2", "P2", 40, 12, POutcome.ok⟩]).processed
      = [⟨"P2", 12⟩]
    ∧ (combine_pdfs List.sum "Y.pdf" 95
        [⟨"K1", "E1", 40, 10, POutcome.raised RaiseSite.atWrite⟩,
          ⟨"K2", "P2", 40, 12, POutcome.ok⟩]).failed
      = ["E1"]
    ∧ (combine_pdfs List.sum "Y.pdf" 95
        [⟨"K1", "E1", 40, 10, POutcome.raised RaiseSite.atWrite⟩,
          ⟨"K2", "P2", 40, 12, POutcome.ok⟩]).chunks.map Chunk.papers
      = [[⟨"P2", 12⟩]]
    ∧ (combine_pdfs List.sum "Y.pdf" 95
        [⟨"K1", "E1", 40, 10, POutcome.raised RaiseSite.atWrite⟩,
          ⟨"K2", "P2", 40, 12, POutcome.ok⟩]).files 1
      = ["K1", "K2"] := by decide

/-- C6 amended: whichever site inside the loop body the merge/measure
exception is raised at, it is caught by the per-item handler: the item's
title is the one addition to the failed list, no paper record is created
for the item (the processed list is unchanged, and the records held by the
sealed chunks together with the open chunk's member list are exactly those
held before the step), and the fold continues with the subsequent items.
Mutations the body performed before the raise — content left in the live
merger, a written chunk file, a rollover already taken — are retained, as
`combineStep`'s raised branches record per site. -/
theorem c6_amended_error_caught_run_continues (measure : List Nat → Nat) (base : String)
    (ceiling : Nat) (s : AggState) (it : PItem) (site : RaiseSite)
    (h : it.outcome = POutcome.raised site) :
    (combineStep measure base ceiling s it).failed = s.failed ++ [it.title]
    ∧ (combineStep measure base ceiling s it).processed = s.processed
    ∧ ((combineStep measure base ceiling s it).chunks.map Chunk.papers).flatten
        ++ (combineStep measure base ceiling s it).currentPapers
      = (s.chunks.map Chunk.papers).flatten ++ s.currentPapers := by
  unfold combineStep
  rw [h]
  cases site with
  | atAppend => exact ⟨rfl, rfl, rfl⟩
  | atWrite => exact ⟨rfl, rfl, rfl⟩
  | atMeasure => exact ⟨rfl, rfl, rfl⟩
  | atReader =>
    dsimp only
    split
    · refine ⟨rfl, rfl, ?_⟩
      simp only [List.map_append, List.flatten_append, List.map_cons, List.map_nil,
        List.flatten_cons, List.flatten_nil, List.append_nil]
    · exact ⟨rfl, rfl, rfl⟩

/-- C6 witness: the amended statement at a concrete state and an item
raising at the write site. -/
theorem c6_amended_witness :
    (combineStep List.sum "b.pdf" 95 (init_agg_state "b.pdf")
        ⟨"K1", "E1", 40, 10, POutcome.raised RaiseSite.atWrite⟩).failed
      = (init_agg_state "b.pdf").failed ++ ["E1"]
    ∧ (combineStep List.sum "b.pdf" 95 (init_agg_state "b.pdf")
        ⟨"K1", "E1", 40, 10, POutcome.raised RaiseSite.atWrite⟩).processed
      = (init_agg_state "b.pdf").processed
    ∧ ((combineStep List.sum "b.pdf" 95 (init_agg_state "b.pdf")
          ⟨"K1", "E1", 40, 10, POutcome.raised RaiseSite.atWrite⟩).chunks.map
          Chunk.papers).flatten
        ++ (combineStep List.sum "b.pdf" 95 (init_agg_state "b.pdf")
          ⟨"K1", "E1", 40, 10, POutcome.raised RaiseSite.atWrite⟩).currentPapers
      = ((init_agg_state "b.pdf").chunks.map Chunk.papers).flatten
        ++ (init_agg_state "b.pdf").currentPapers :=
  c6_amended_error_caught_run_continues List.sum "b.pdf" 95 (init_agg_state "b.pdf")
    ⟨"K1", "E1", 40, 10, POutcome.raised RaiseSite.atWrite⟩ RaiseSite.atWrite rfl

/-- A network environment in which every attempted request fails: the
storage request raises, the direct URL answers 403, and the Unpaywall
lookup reports no open-access copy. -/
def envAllFail : FetchEnv :=
  { storageResp := Net.err "connection reset"
    signedResp := Net.err "unused"
    urlResp := Net.ok ⟨403, none, []⟩
    upResp := Net.ok ⟨200, false, none⟩
    altResp := fun _ => Net.err "unused" }

/-- C7 counterexample: the spec claims that when every candidate fails the
FetchResult carries a synthesized error summary that the report's failure
classification later consumes. The code's `get_pdf_content` returns a bare
`None` (modelled by the payload-free `failed` constructor, so no error text
exists to carry), and the run records only the item's bare title in
`failed_papers` — no reason string or summary anywhere in the output. -/
theorem c7_counter_no_error_summary :
    get_pdf_content envAllFail itemFull = FetchOutcome.failed
    ∧ FetchOutcome.content (get_pdf_content envAllFail itemFull) = none
    ∧ (combine_pdfs List.sum "X_papers.pdf" 95 [⟨"KD", "D", 40, 10, POutcome.fetchFail⟩]).failed
      = ["D"]
    ∧ (combine_pdfs List.sum "X_papers.pdf" 95 [⟨"KD", "D", 40, 10, POutcome.fetchFail⟩]).chunks
      = [] := by decide

/-- C7 amended: when all three methods fail, the fetch returns with bytes
absent and no source recorded, without raising (the function is total and
each method catches its own errors); no error summary is synthesized — the
run report receives only the item's title. -/
theorem c7_amended_all_fail_returns_absent (env : FetchEnv) (item : FetchItem)
    (h1 : method1Result env item = none) (h2 : method2Result env item = none)
    (h3 : method3Result env item = none) :
    get_pdf_content env item = FetchOutcome.failed
    ∧ (get_pdf_content env item).content = none
    ∧ (get_pdf_content env item).sourceUsed = none := by
  simp [get_pdf_content, h1, h2, h3, FetchOutcome.content, FetchOutcome.sourceUsed]

/-- C7 witness: the amended statement at the concrete all-fail environment. -/
theorem c7_amended_witness :
    get_pdf_content envAllFail itemFull = FetchOutcome.failed :=
  (c7_amended_all_fail_returns_absent envAllFail itemFull (by decide) (by decide)
    (by decide)).1

/-- An item whose sole attachment is an HTML file: no child passes the PDF
test. -/
def itemD : ZItem :=
  ⟨"KD", some "journalArticle", "D", Net.ok [⟨some "text/html", some "attachment", "d.html"⟩]⟩

/-- C8 counterexample: the spec claims an item with no PDF attachment is
recorded in the failed list with reason "no attachment found". The code
filters such items out before the loop: item D contributes no pair, and the
run over the resulting (empty) list has an empty failed list — D appears
nowhere in the run report, silently skipped. -/
theorem c8_counter_item_silently_skipped :
    get_collection_items_with_pdfs [itemD] = []
    ∧ (combine_pdfs List.sum "X_papers.pdf" 95 []).failed = []
    ∧ (combine_pdfs List.sum "X_papers.pdf" 95 []).processed = [] := by decide

/-- C8 amended: an item for which no child passes the PDF test (or whose
children lookup raised, or which is itself an attachment) is dropped by
`get_collection_items_with_pdfs`: no pair with that item is produced, so
the fetch is never invoked for it and nothing downstream (processed or
failed list) ever mentions it. -/
theorem c8_amended_no_pdf_item_never_selected (items : List ZItem) (it : ZItem)
    (h : selected_pdf_child it = none) :
    ∀ p ∈ get_collection_items_with_pdfs items, p.1 ≠ it := by
  intro p hp hq
  unfold get_collection_items_with_pdfs at hp
  rw [List.mem_filterMap] at hp
  obtain ⟨a, -, ha⟩ := hp
  rw [Option.map_eq_some'] at ha
  obtain ⟨c, hsel, hc⟩ := ha
  subst hc
  have ha' : a = it := hq
  subst ha'
  rw [h] at hsel
  exact Option.noConfusion hsel

/-- An item with a proper PDF attachment, used to populate the selection. -/
def pdfChildE : ZChild := ⟨some "application/pdf", some "attachment", "e.pdf"⟩

/-- A library item whose first child is `pdfChildE`. -/
def itemE : ZItem := ⟨"KE", some "journalArticle", "E", Net.ok [pdfChildE]⟩

/-- C8 witness: in the collection [D, E], the only produced pair is E's, and
the amended theorem shows its first component is not D. -/
theorem c8_amended_witness : (itemE, pdfChildE).1 ≠ itemD :=
  c8_amended_no_pdf_item_never_selected [itemD, itemE] itemD (by decide)
    (itemE, pdfChildE) (by decide)

/-- C9 counterexample: the spec claims a run producing exactly one chunk
with no rollover emits an artifact named `{base_name}.{ext}` with no chunk
suffix. The code's `get_chunk_path` is applied from chunk 1 on, so even a
sole chunk is written to the `_chunk1` name, which differs from the bare
base name. -/
theorem c9_counter_single_chunk_suffixed :
    (combine_pdfs List.sum "X_papers.pdf" 95
        [⟨"KA", "A", 40, 10, POutcome.ok⟩]).chunks.map Chunk.path
      = ["X_papers_chunk1.pdf"]
    ∧ "X_papers_chunk1.pdf" ≠ "X_papers.pdf" := by decide

/-- C9 amended: every emitted chunk, a sole rollover-free chunk included, is
written to the `{base_name}_chunk{n}{ext}` path for its chunk number; the
unsuffixed base name is never used. -/
theorem c9_amended_all_chunks_suffixed (measure : List Nat → Nat) (base : String)
    (ceiling : Nat) (items : List PItem) :
    ∀ c ∈ (combine_pdfs measure base ceiling items).chunks,
      c.path = get_chunk_path base c.num := by
  unfold combine_pdfs
  exact finalize_paths measure base _ (aggInv_run measure base ceiling items).2.2.1
    (aggInv_run measure base ceiling items).2.2.2

/-- C9 witness: the sole chunk of a one-item run carries the `_chunk1`
name. -/
theorem c9_amended_all_chunks_suffixed_witness :
    (Chunk.mk 1 "X_papers_chunk1.pdf" 40 [⟨"A", 10⟩]).path
      = get_chunk_path "X_papers.pdf" 1 :=
  c9_amended_all_chunks_suffixed List.sum "X_papers.pdf" 95
    [⟨"KA", "A", 40, 10, POutcome.ok⟩]
    (Chunk.mk 1 "X_papers_chunk1.pdf" 40 [⟨"A", 10⟩]) (by decide)

/-- C10: a pair produced by `get_collection_items_with_pdfs` carries the
first child of that item passing the PDF test (the `break` at line 88 stops
the scan), and no pair with the same item carries any other child — at most
one attachment per item is ever fetched and merged, later PDF attachments
are never selected. -/
theorem c10_first_pdf_child_selected (items : List ZItem) (it : ZItem) (ch : ZChild)
    (cs : List ZChild) (hcs : it.children = Net.ok cs)
    (hmem : (it, ch) ∈ get_collection_items_with_pdfs items) :
    cs.find? isPdfChild = some ch
    ∧ ∀ ch', (it, ch') ∈ get_collection_items_with_pdfs items → ch' = ch := by
  have key : ∀ ch', (it, ch') ∈ get_collection_items_with_pdfs items →
      cs.find? isPdfChild = some ch' := by
    intro ch' hm
    unfold get_collection_items_with_pdfs at hm
    rw [List.mem_filterMap] at hm
    obtain ⟨a, -, ha⟩ := hm
    rw [Option.map_eq_some'] at ha
    obtain ⟨c, hsel, hc⟩ := ha
    rw [Prod.mk.injEq] at hc
    obtain ⟨rfl, rfl⟩ := hc
    unfold selected_pdf_child at hsel
    rw [hcs] at hsel
    split at hsel
    · exact Option.noConfusion hsel
    · exact hsel
  refine ⟨key ch hmem, ?_⟩
  intro ch' hm
  have h1 := key ch hmem
  have h2 := key ch' hm
  rw [h1] at h2
  exact (Option.some.inj h2).symm

/-- A child that fails the PDF test, listed first. -/
def htmlChild : ZChild := ⟨some "text/html", none, "x.html"⟩

/-- The first PDF attachment of the multi-attachment item. -/
def pdfChildOne : ZChild := ⟨some "application/pdf", some "attachment", "p1.pdf"⟩

/-- A second PDF attachment of the same item, which the scan must skip. -/
def pdfChildTwo : ZChild := ⟨some "application/pdf", some "attachment", "p2.pdf"⟩

/-- An item with one non-PDF child followed by two PDF children. -/
def itemM : ZItem :=
  ⟨"KM", some "journalArticle", "M", Net.ok [htmlChild, pdfChildOne, pdfChildTwo]⟩

/-- C10 witness: for the item with two PDF attachments, the produced pair
carries the first one. -/
theorem c10_first_pdf_child_selected_witness :
    [htmlChild, pdfChildOne, pdfChildTwo].find? isPdfChild = some pdfChildOne :=
  (c10_first_pdf_child_selected [itemM] itemM pdfChildOne
    [htmlChild, pdfChildOne, pdfChildTwo] rfl (by decide)).1
